import Mathlib

/-!
Verification of the `ubl` package (github.com/verscheures/ubl), a Go library
that assembles UBL/Peppol invoice and credit-note documents.

Shallow embedding conventions:
* Go `float64` monetary values are modelled by exact rationals (`ℚ`); the
  package treats amounts as exact decimal arithmetic guarded by two-decimal
  rounding.
* Go strings are modelled by Lean `String` (character lists); the identifiers
  manipulated here are ASCII, so byte indexing and character indexing agree.
* The Go `map[taxKey]*taxSummary` is modelled by an association list in key
  insertion order; Go's unspecified map-iteration order is modelled by
  quantifying over permutations of the accumulated entries (`validOrder`).
* `time.Time` values are abstracted to their `"2006-01-02"`-formatted strings,
  which is the only way the package consumes them.
* External capabilities (`os.ReadFile`, `http.DetectContentType`, base64
  encoding, the clock) are parameters of document generation (`GoEnv`).
* A Go runtime panic (out-of-bounds string slice) is the `GenResult.fault`
  outcome, distinct from a returned `error` (`GenResult.err`).
-/

namespace Ubl

/-- Go `math.Round`: round to the nearest integer, half away from zero.
For `0 ≤ q` this is `⌊q + 1/2⌋`; for `q < 0` it is `-⌊-q + 1/2⌋`. -/
def roundAway (q : ℚ) : ℤ :=
  if 0 ≤ q then ⌊q + 1/2⌋ else - ⌊-q + 1/2⌋

/-- `func round(amount float64) float64 { return math.Round(amount*100) / 100 }` -/
def round (amount : ℚ) : ℚ := (roundAway (amount * 100) : ℚ) / 100

theorem round_zero : round 0 = 0 := by
  norm_num [round, roundAway]

/-- The input line-item model (`type InvoiceLine struct`, latest revision). -/
structure InvoiceLine where
  Quantity : ℚ
  Price : ℚ
  TaxPercentage : ℚ
  TaxCategoryID : String
  TaxCategoryName : String
  TaxExemptionReason : String
  TaxExemptionCode : String
  Name : String
  Description : String
deriving DecidableEq

structure Address where
  StreetName : String
  CityName : String
  PostalZone : String
  CountryCode : String
deriving DecidableEq

/-- The digit-stripping loop at the head of `cleanVATIdentifier`:
`for len(vatID) > 0 && vatID[0] >= '0' && vatID[0] <= '9' { vatID = vatID[1:] }` -/
def stripLeadingDigits : List Char → List Char
  | [] => []
  | c :: cs => if '0' ≤ c ∧ c ≤ '9' then stripLeadingDigits cs else c :: cs

/-- `func cleanVATIdentifier(vatID, countryCode string) string`, on character
lists.  After stripping leading digits: if at least two characters remain and
the first is not an uppercase ASCII letter, prepend the country code; if fewer
than two characters remain, prepend the country code; otherwise rewrite a
leading `GR` to `EL` and return the rest unchanged. -/
def cleanVATChars (vatID countryCode : List Char) : List Char :=
  match stripLeadingDigits vatID with
  | c :: d :: t =>
    if c < 'A' ∨ 'Z' < c then countryCode ++ (c :: d :: t)
    else if c = 'G' ∧ d = 'R' then 'E' :: 'L' :: t
    else c :: d :: t
  | v => countryCode ++ v

def cleanVATIdentifier (vatID countryCode : String) : String :=
  ⟨cleanVATChars vatID.data countryCode.data⟩

/-- An ASCII uppercase letter is not an ASCII digit (`'9' < 'A'`). -/
theorem upper_not_digit {c : Char} (h : 'A' ≤ c) : ¬ ('0' ≤ c ∧ c ≤ '9') := by
  rintro ⟨-, h9⟩
  exact absurd (le_trans h h9) (by decide)

theorem stripLeadingDigits_nonDigit {c : Char} (t : List Char)
    (h : ¬ ('0' ≤ c ∧ c ≤ '9')) : stripLeadingDigits (c :: t) = c :: t := by
  simp [stripLeadingDigits, h]

/-- Any character list starting with two characters whose first is an
uppercase ASCII letter and whose first two characters are not `G`, `R`
is a fixed point of `cleanVATChars`, for every country code. -/
theorem cleanVATChars_fixed (c d : Char) (t cc : List Char)
    (hA : 'A' ≤ c) (hZ : c ≤ 'Z') (hGR : ¬ (c = 'G' ∧ d = 'R')) :
    cleanVATChars (c :: d :: t) cc = c :: d :: t := by
  unfold cleanVATChars
  rw [stripLeadingDigits_nonDigit _ (upper_not_digit hA)]
  have hcase : ¬ (c < 'A' ∨ 'Z' < c) := by
    push_neg
    exact ⟨hA, hZ⟩
  simp [hcase, hGR]

/-- Normalizing twice with a country code of at least two characters whose
first character is an uppercase ASCII letter and whose first two characters
are not `G`, `R` gives the same result as normalizing once. -/
theorem cleanVATChars_idem (v : List Char) (a b : Char) (r : List Char)
    (hA : 'A' ≤ a) (hZ : a ≤ 'Z') (hGR : ¬ (a = 'G' ∧ b = 'R')) :
    cleanVATChars (cleanVATChars v (a :: b :: r)) (a :: b :: r)
      = cleanVATChars v (a :: b :: r) := by
  rcases hs : stripLeadingDigits v with _ | ⟨c, _ | ⟨d, t⟩⟩
  · have h1 : cleanVATChars v (a :: b :: r) = a :: b :: r := by
      unfold cleanVATChars
      rw [hs]
      simp
    rw [h1]
    exact cleanVATChars_fixed a b r (a :: b :: r) hA hZ hGR
  · have h1 : cleanVATChars v (a :: b :: r) = a :: b :: (r ++ [c]) := by
      unfold cleanVATChars
      rw [hs]
      simp
    rw [h1]
    exact cleanVATChars_fixed a b _ _ hA hZ hGR
  · by_cases hc : c < 'A' ∨ 'Z' < c
    · have h1 : cleanVATChars v (a :: b :: r) = a :: b :: (r ++ (c :: d :: t)) := by
        unfold cleanVATChars
        rw [hs]
        simp [hc]
      rw [h1]
      exact cleanVATChars_fixed a b _ _ hA hZ hGR
    · push_neg at hc
      by_cases hgr : c = 'G' ∧ d = 'R'
      · have h1 : cleanVATChars v (a :: b :: r) = 'E' :: 'L' :: t := by
          unfold cleanVATChars
          rw [hs]
          simp [hgr, not_or.mpr ⟨not_lt.mpr hc.1, not_lt.mpr hc.2⟩]
        rw [h1]
        exact cleanVATChars_fixed 'E' 'L' t _ (by decide) (by decide) (by decide)
      · have h1 : cleanVATChars v (a :: b :: r) = c :: d :: t := by
          unfold cleanVATChars
          rw [hs]
          simp [hgr, not_or.mpr ⟨not_lt.mpr hc.1, not_lt.mpr hc.2⟩]
        rw [h1]
        exact cleanVATChars_fixed c d t _ hc.1 hc.2 hgr

/-- Claim C6: the VAT identifier normalizer strips leading ASCII digits while
keeping an embedded country prefix, and rewrites a leading `GR` to `EL`
leaving the remainder unchanged. -/
theorem claim_C6_normalizer_examples :
    cleanVATIdentifier "9925BE0123456789" "BE" = "BE0123456789" ∧
    cleanVATIdentifier "GR123456789" "GR" = "EL123456789" := by
  decide

/-- Claim C7 as stated is false: with country code `"GR"`, normalizing the
empty identifier yields `"GR"`, and normalizing `"GR"` again rewrites it to
`"EL"`, so normalization is not idempotent for every country code. -/
theorem claim_C7_counterexample :
    cleanVATIdentifier (cleanVATIdentifier "" "GR") "GR" ≠ cleanVATIdentifier "" "GR" := by
  decide

/-- Claim C7, amended: VAT identifier normalization is idempotent for every
raw identifier whenever the supplied country code has at least two characters,
starts with an uppercase ASCII letter, and does not start with `"GR"` (the
`GR` → `EL` rewrite makes `"GR"`-prefixed outputs unstable). -/
theorem claim_C7_amended (x : String) (a b : Char) (r : List Char)
    (hA : 'A' ≤ a) (hZ : a ≤ 'Z') (hGR : ¬ (a = 'G' ∧ b = 'R')) :
    cleanVATIdentifier (cleanVATIdentifier x ⟨a :: b :: r⟩) ⟨a :: b :: r⟩
      = cleanVATIdentifier x ⟨a :: b :: r⟩ := by
  unfold cleanVATIdentifier
  exact congrArg String.mk (cleanVATChars_idem x.data a b r hA hZ hGR)

/-- Witness for the amended claim C7, at identifier `"x123"` and country
code `"BE"`. -/
theorem claim_C7_witness :
    cleanVATIdentifier (cleanVATIdentifier "x123" ⟨['B', 'E']⟩) ⟨['B', 'E']⟩
      = cleanVATIdentifier "x123" ⟨['B', 'E']⟩ :=
  claim_C7_amended "x123" 'B' 'E' [] (by decide) (by decide) (by decide)

/-! ## Output document model (the `xml...` structs) -/

structure xmlTaxScheme where
  ID : String
deriving DecidableEq

structure xmlTaxCategory where
  ID : String
  Name : String
  Percent : ℚ
  TaxExemptionReasonCode : String
  TaxExemptionReason : String
  TaxScheme : xmlTaxScheme
deriving DecidableEq

structure xmlAmount where
  Value : ℚ
  CurrencyID : String
deriving DecidableEq

structure xmlQuantity where
  Value : ℚ
  UnitCode : String
deriving DecidableEq

structure xmlTaxSubtotal where
  TaxableAmount : xmlAmount
  TaxAmount : xmlAmount
  TaxCategory : xmlTaxCategory
deriving DecidableEq

structure xmlTaxTotal where
  TaxAmount : xmlAmount
  TaxSubtotal : List xmlTaxSubtotal
deriving DecidableEq

structure xmlItem where
  Description : String
  Name : String
  ClassifiedTaxCategory : xmlTaxCategory
deriving DecidableEq

structure xmlPrice where
  PriceAmount : xmlAmount
deriving DecidableEq

structure xmlInvoiceLine where
  ID : String
  InvoicedQuantity : xmlQuantity
  LineExtensionAmount : xmlAmount
  TaxTotal : xmlTaxTotal
  Item : xmlItem
  Price : xmlPrice
deriving DecidableEq

structure xmlCreditNoteLine where
  ID : String
  CreditedQuantity : xmlQuantity
  LineExtensionAmount : xmlAmount
  Item : xmlItem
  Price : xmlPrice
deriving DecidableEq

structure xmlMonetaryTotal where
  LineExtensionAmount : xmlAmount
  TaxExclusiveAmount : xmlAmount
  TaxInclusiveAmount : xmlAmount
  PayableAmount : xmlAmount
deriving DecidableEq

/-! ## Tax aggregation (`calculateTaxTotals`) -/

/-- `type taxKey struct { Rate float64; CategoryID string }` -/
structure taxKey where
  Rate : ℚ
  CategoryID : String
deriving DecidableEq

/-- `type taxSummary struct { key taxKey; taxable, tax float64; catName string }` -/
structure taxSummary where
  key : taxKey
  taxable : ℚ
  tax : ℚ
  catName : String
deriving DecidableEq

/-- One Go-map operation of the aggregation loop, on an association list in
key insertion order: if the key is absent, create the entry with the line's
category name and zero accumulators and add the amounts (net effect: the
amounts themselves); otherwise add the amounts to the existing entry, keeping
the category name observed first. -/
def bumpSummaries : List (taxKey × taxSummary) → taxKey → String → ℚ → ℚ →
    List (taxKey × taxSummary)
  | [], key, categoryName, lineAmount, tax =>
    [(key, { key := key, taxable := lineAmount, tax := tax, catName := categoryName })]
  | p :: ps, key, categoryName, lineAmount, tax =>
    if p.1 = key then
      (p.1, { p.2 with taxable := p.2.taxable + lineAmount, tax := p.2.tax + tax }) :: ps
    else
      p :: bumpSummaries ps key categoryName lineAmount tax

/-- Accumulator of the `calculateTaxTotals` loop: the two document-level
running sums and the summary map. -/
structure TaxAccum where
  lineTotal : ℚ
  taxTotal : ℚ
  summaries : List (taxKey × taxSummary)
deriving DecidableEq

/-- The body of the `for _, line := range lines` loop of
`calculateTaxTotals`: resolve the category (default `S` / "Standard rated",
force rate 0 for `K`), compute the rounded line amount and tax, and
accumulate. -/
def calcStep (acc : TaxAccum) (line : InvoiceLine) : TaxAccum :=
  let lineAmount := round (line.Quantity * line.Price)
  let categoryID := if line.TaxCategoryID = "" then "S" else line.TaxCategoryID
  let categoryName := if line.TaxCategoryName = "" then "Standard rated" else line.TaxCategoryName
  let taxRate := if categoryID = "K" then (0 : ℚ) else line.TaxPercentage
  let tax := round (lineAmount * taxRate / 100)
  let key : taxKey := { Rate := taxRate, CategoryID := categoryID }
  { lineTotal := acc.lineTotal + lineAmount
    taxTotal := acc.taxTotal + tax
    summaries := bumpSummaries acc.summaries key categoryName lineAmount tax }

def calcFold (lines : List InvoiceLine) : TaxAccum :=
  lines.foldl calcStep { lineTotal := 0, taxTotal := 0, summaries := [] }

/-- Emission of one subtotal fragment from a summary (the second loop of
`calculateTaxTotals`); for category `K` the emitted category always carries
the default exemption reason code and text. -/
def emitSubtotal (summary : taxSummary) : xmlTaxSubtotal :=
  let taxCat : xmlTaxCategory :=
    { ID := summary.key.CategoryID
      Name := summary.catName
      Percent := summary.key.Rate
      TaxExemptionReasonCode := ""
      TaxExemptionReason := ""
      TaxScheme := { ID := "VAT" } }
  let taxCat :=
    if summary.key.CategoryID = "K" then
      { taxCat with
          TaxExemptionReasonCode := "VATEX-EU-IC"
          TaxExemptionReason := "Intra-community supply" }
    else taxCat
  { TaxableAmount := { Value := summary.taxable, CurrencyID := "EUR" }
    TaxAmount := { Value := summary.tax, CurrencyID := "EUR" }
    TaxCategory := taxCat }

/-- The summary values in key insertion order: one legal iteration order of
the Go map. -/
def mapOrder (lines : List InvoiceLine) : List taxSummary :=
  ((calcFold lines).summaries).map Prod.snd

/-- Go map iteration order is unspecified: a run of the emission loop may
observe the accumulated summaries in any permutation of their insertion
order. -/
def validOrder (lines : List InvoiceLine) (order : List taxSummary) : Prop :=
  order.Perm (mapOrder lines)

/-- `func calculateTaxTotals(lines []InvoiceLine) (lineTotal, taxTotal float64,
subtotals []xmlTaxSubtotal)`, parameterized by the map iteration order of this
run. -/
def calculateTaxTotals (lines : List InvoiceLine) (order : List taxSummary) :
    ℚ × ℚ × List xmlTaxSubtotal :=
  ((calcFold lines).lineTotal, (calcFold lines).taxTotal, order.map emitSubtotal)

/-! ## Line builders (`Invoice.addLines` / `CreditNote.addLines` loop bodies) -/

/-- The body of the `for i, line := range inv.Lines` loop of
`Invoice.addLines` (latest revision), producing the `i`-th line fragment
(`i` is 0-based here; the emitted sequence identifier is `i + 1`). -/
def buildInvoiceLine (i : ℕ) (line : InvoiceLine) : xmlInvoiceLine :=
  let lineAmount := round (line.Quantity * line.Price)
  let tax := round (lineAmount * line.TaxPercentage / 100)
  let categoryID := if line.TaxCategoryID = "" then "S" else line.TaxCategoryID
  let categoryName := if line.TaxCategoryName = "" then "Standard rated" else line.TaxCategoryName
  let taxRate := if categoryID = "K" then (0 : ℚ) else line.TaxPercentage
  let tax := if categoryID = "K" then (0 : ℚ) else tax
  let taxCat : xmlTaxCategory :=
    { ID := categoryID
      Name := categoryName
      Percent := taxRate
      TaxExemptionReasonCode := ""
      TaxExemptionReason := ""
      TaxScheme := { ID := "VAT" } }
  let taxCat :=
    if categoryID = "K" then
      { taxCat with
          TaxExemptionReasonCode :=
            if line.TaxExemptionCode ≠ "" then line.TaxExemptionCode else "VATEX-EU-IC"
          TaxExemptionReason :=
            if line.TaxExemptionReason ≠ "" then line.TaxExemptionReason
            else "Intra-community supply" }
    else taxCat
  { ID := toString (i + 1)
    InvoicedQuantity := { Value := line.Quantity, UnitCode := "ZZ" }
    LineExtensionAmount := { Value := lineAmount, CurrencyID := "EUR" }
    TaxTotal := { TaxAmount := { Value := tax, CurrencyID := "EUR" }, TaxSubtotal := [] }
    Item := { Description := line.Description, Name := line.Name, ClassifiedTaxCategory := taxCat }
    Price := { PriceAmount := { Value := line.Price, CurrencyID := "EUR" } } }

def buildInvoiceLines (i : ℕ) : List InvoiceLine → List xmlInvoiceLine
  | [] => []
  | l :: ls => buildInvoiceLine i l :: buildInvoiceLines (i + 1) ls

/-- The body of the `for i, line := range cn.Lines` loop of
`CreditNote.addLines`: same category resolution as the invoice builder, but
the credit-note line fragment carries no per-line tax total. -/
def buildCreditNoteLine (i : ℕ) (line : InvoiceLine) : xmlCreditNoteLine :=
  let lineAmount := round (line.Quantity * line.Price)
  let categoryID := if line.TaxCategoryID = "" then "S" else line.TaxCategoryID
  let categoryName := if line.TaxCategoryName = "" then "Standard rated" else line.TaxCategoryName
  let taxRate := if categoryID = "K" then (0 : ℚ) else line.TaxPercentage
  let taxCat : xmlTaxCategory :=
    { ID := categoryID
      Name := categoryName
      Percent := taxRate
      TaxExemptionReasonCode := ""
      TaxExemptionReason := ""
      TaxScheme := { ID := "VAT" } }
  let taxCat :=
    if categoryID = "K" then
      { taxCat with
          TaxExemptionReasonCode :=
            if line.TaxExemptionCode ≠ "" then line.TaxExemptionCode else "VATEX-EU-IC"
          TaxExemptionReason :=
            if line.TaxExemptionReason ≠ "" then line.TaxExemptionReason
            else "Intra-community supply" }
    else taxCat
  { ID := toString (i + 1)
    CreditedQuantity := { Value := line.Quantity, UnitCode := "ZZ" }
    LineExtensionAmount := { Value := lineAmount, CurrencyID := "EUR" }
    Item := { Description := line.Description, Name := line.Name, ClassifiedTaxCategory := taxCat }
    Price := { PriceAmount := { Value := line.Price, CurrencyID := "EUR" } } }

def buildCreditNoteLines (i : ℕ) : List InvoiceLine → List xmlCreditNoteLine
  | [] => []
  | l :: ls => buildCreditNoteLine i l :: buildCreditNoteLines (i + 1) ls

/-- The totals section built at the end of both `addLines` methods. -/
def buildTotals (lines : List InvoiceLine) (order : List taxSummary) :
    xmlTaxTotal × xmlMonetaryTotal :=
  let r := calculateTaxTotals lines order
  let lineTotal := r.1
  let taxTotal := r.2.1
  let subtotals := r.2.2
  let total := round (lineTotal + taxTotal)
  ({ TaxAmount := { Value := taxTotal, CurrencyID := "EUR" }, TaxSubtotal := subtotals },
   { LineExtensionAmount := { Value := lineTotal, CurrencyID := "EUR" }
     TaxExclusiveAmount := { Value := lineTotal, CurrencyID := "EUR" }
     TaxInclusiveAmount := { Value := total, CurrencyID := "EUR" }
     PayableAmount := { Value := total, CurrencyID := "EUR" } })

/-! ## Invariants of the aggregation loop -/

def sumTaxableEntries (m : List (taxKey × taxSummary)) : ℚ :=
  (m.map fun p => p.2.taxable).sum

def sumTaxEntries (m : List (taxKey × taxSummary)) : ℚ :=
  (m.map fun p => p.2.tax).sum

theorem bump_cons_eq (p : taxKey × taxSummary) (ps : List (taxKey × taxSummary))
    (key : taxKey) (cn : String) (la tx : ℚ) (h : p.1 = key) :
    bumpSummaries (p :: ps) key cn la tx =
      (p.1, { p.2 with taxable := p.2.taxable + la, tax := p.2.tax + tx }) :: ps := by
  simp [bumpSummaries, h]

theorem bump_cons_ne (p : taxKey × taxSummary) (ps : List (taxKey × taxSummary))
    (key : taxKey) (cn : String) (la tx : ℚ) (h : ¬ p.1 = key) :
    bumpSummaries (p :: ps) key cn la tx = p :: bumpSummaries ps key cn la tx := by
  simp [bumpSummaries, h]

theorem bump_sumTaxable (m : List (taxKey × taxSummary)) (key : taxKey)
    (cn : String) (la tx : ℚ) :
    sumTaxableEntries (bumpSummaries m key cn la tx) = sumTaxableEntries m + la := by
  induction m with
  | nil => simp [bumpSummaries, sumTaxableEntries]
  | cons p ps ih =>
    by_cases h : p.1 = key
    · rw [bump_cons_eq p ps key cn la tx h]
      simp only [sumTaxableEntries, List.map_cons, List.sum_cons]
      ring
    · rw [bump_cons_ne p ps key cn la tx h]
      simp only [sumTaxableEntries, List.map_cons, List.sum_cons] at ih ⊢
      rw [ih]
      ring

theorem bump_sumTax (m : List (taxKey × taxSummary)) (key : taxKey)
    (cn : String) (la tx : ℚ) :
    sumTaxEntries (bumpSummaries m key cn la tx) = sumTaxEntries m + tx := by
  induction m with
  | nil => simp [bumpSummaries, sumTaxEntries]
  | cons p ps ih =>
    by_cases h : p.1 = key
    · rw [bump_cons_eq p ps key cn la tx h]
      simp only [sumTaxEntries, List.map_cons, List.sum_cons]
      ring
    · rw [bump_cons_ne p ps key cn la tx h]
      simp only [sumTaxEntries, List.map_cons, List.sum_cons] at ih ⊢
      rw [ih]
      ring

theorem bump_keys (m : List (taxKey × taxSummary)) (key : taxKey)
    (cn : String) (la tx : ℚ) :
    (bumpSummaries m key cn la tx).map Prod.fst =
      if key ∈ m.map Prod.fst then m.map Prod.fst else m.map Prod.fst ++ [key] := by
  induction m with
  | nil => simp [bumpSummaries]
  | cons p ps ih =>
    by_cases h : p.1 = key
    · rw [bump_cons_eq p ps key cn la tx h]
      simp [h]
    · rw [bump_cons_ne p ps key cn la tx h]
      have hne : ¬ key = p.1 := fun hh => h hh.symm
      by_cases hk : key ∈ ps.map Prod.fst
      · simp [ih, hk, hne]
      · simp [ih, hk, hne]

theorem bump_keys_nodup (m : List (taxKey × taxSummary)) (key : taxKey)
    (cn : String) (la tx : ℚ) (h : (m.map Prod.fst).Nodup) :
    ((bumpSummaries m key cn la tx).map Prod.fst).Nodup := by
  rw [bump_keys]
  by_cases hk : key ∈ m.map Prod.fst
  · simpa [hk] using h
  · simp [hk, List.nodup_append, h]

theorem bump_keyField (m : List (taxKey × taxSummary)) (key : taxKey)
    (cn : String) (la tx : ℚ) (h : ∀ p ∈ m, p.1 = p.2.key) :
    ∀ p ∈ bumpSummaries m key cn la tx, p.1 = p.2.key := by
  induction m with
  | nil =>
    intro p hp
    simp [bumpSummaries] at hp
    subst hp
    rfl
  | cons q qs ih =>
    by_cases hq : q.1 = key
    · rw [bump_cons_eq q qs key cn la tx hq]
      intro p hp
      rcases List.mem_cons.mp hp with hp | hp
      · subst hp
        exact h q (List.mem_cons_self q qs)
      · exact h p (List.mem_cons_of_mem q hp)
    · rw [bump_cons_ne q qs key cn la tx hq]
      intro p hp
      rcases List.mem_cons.mp hp with hp | hp
      · exact hp ▸ h q (List.mem_cons_self q qs)
      · exact ih (fun r hr => h r (List.mem_cons_of_mem q hr)) p hp

/-- The invariant carried by the aggregation loop: the map keys are
pairwise distinct, each entry's stored key equals its map key, and the two
document-level running sums equal the sums over the map entries. -/
def accInv (acc : TaxAccum) : Prop :=
  ((acc.summaries.map Prod.fst).Nodup) ∧
  (∀ p ∈ acc.summaries, p.1 = p.2.key) ∧
  acc.lineTotal = sumTaxableEntries acc.summaries ∧
  acc.taxTotal = sumTaxEntries acc.summaries

theorem calcStep_inv (acc : TaxAccum) (line : InvoiceLine) (h : accInv acc) :
    accInv (calcStep acc line) := by
  obtain ⟨h1, h2, h3, h4⟩ := h
  refine ⟨bump_keys_nodup _ _ _ _ _ h1, bump_keyField _ _ _ _ _ h2, ?_, ?_⟩
  · show acc.lineTotal + _ = sumTaxableEntries (bumpSummaries acc.summaries _ _ _ _)
    rw [bump_sumTaxable, h3]
  · show acc.taxTotal + _ = sumTaxEntries (bumpSummaries acc.summaries _ _ _ _)
    rw [bump_sumTax, h4]

theorem calcFold_inv (lines : List InvoiceLine) : accInv (calcFold lines) := by
  have h : ∀ acc, accInv acc → accInv (lines.foldl calcStep acc) := by
    induction lines with
    | nil => intro acc h; exact h
    | cons l ls ih => intro acc h; exact ih _ (calcStep_inv acc l h)
  exact h _ ⟨by simp, by simp, by simp [sumTaxableEntries], by simp [sumTaxEntries]⟩

theorem subtotals_taxable_sum (lines : List InvoiceLine) (order : List taxSummary)
    (h : validOrder lines order) :
    ((order.map emitSubtotal).map fun st => st.TaxableAmount.Value).sum
      = (calcFold lines).lineTotal := by
  have e1 : ((fun st : xmlTaxSubtotal => st.TaxableAmount.Value) ∘ emitSubtotal)
      = fun s : taxSummary => s.taxable := funext fun s => rfl
  rw [List.map_map, e1]
  rw [(h.map fun s : taxSummary => s.taxable).sum_eq]
  have e2 : (mapOrder lines).map (fun s : taxSummary => s.taxable)
      = (calcFold lines).summaries.map fun p => p.2.taxable := by
    rw [mapOrder, List.map_map]
    rfl
  rw [e2]
  exact ((calcFold_inv lines).2.2.1).symm

theorem subtotals_tax_sum (lines : List InvoiceLine) (order : List taxSummary)
    (h : validOrder lines order) :
    ((order.map emitSubtotal).map fun st => st.TaxAmount.Value).sum
      = (calcFold lines).taxTotal := by
  have e1 : ((fun st : xmlTaxSubtotal => st.TaxAmount.Value) ∘ emitSubtotal)
      = fun s : taxSummary => s.tax := funext fun s => rfl
  rw [List.map_map, e1]
  rw [(h.map fun s : taxSummary => s.tax).sum_eq]
  have e2 : (mapOrder lines).map (fun s : taxSummary => s.tax)
      = (calcFold lines).summaries.map fun p => p.2.tax := by
    rw [mapOrder, List.map_map]
    rfl
  rw [e2]
  exact ((calcFold_inv lines).2.2.2).symm

theorem emitSubtotal_catKey (s : taxSummary) :
    ((emitSubtotal s).TaxCategory.Percent, (emitSubtotal s).TaxCategory.ID)
      = (s.key.Rate, s.key.CategoryID) := by
  unfold emitSubtotal
  by_cases h : s.key.CategoryID = "K" <;> simp [h]

theorem taxKey_pair_injective :
    Function.Injective fun k : taxKey => (k.Rate, k.CategoryID) := by
  intro k1 k2 h
  cases k1
  cases k2
  simpa using h

/-! ## Sample inputs used by witnesses and counterexamples -/

/-- An intra-community line with a stated 19% rate and no exemption
overrides. -/
def lineK0 : InvoiceLine :=
  { Quantity := 1, Price := 20, TaxPercentage := 19, TaxCategoryID := "K",
    TaxCategoryName := "Intra-EU supply", TaxExemptionReason := "",
    TaxExemptionCode := "", Name := "ic", Description := "" }

/-- An intra-community line that overrides both exemption fields. -/
def lineKovr : InvoiceLine :=
  { Quantity := 1, Price := 20, TaxPercentage := 19, TaxCategoryID := "K",
    TaxCategoryName := "Intra-EU supply", TaxExemptionReason := "Custom reason",
    TaxExemptionCode := "VATEX-EU-O", Name := "ic", Description := "" }

def lineS21 : InvoiceLine :=
  { Quantity := 1, Price := 100, TaxPercentage := 21, TaxCategoryID := "S",
    TaxCategoryName := "", TaxExemptionReason := "", TaxExemptionCode := "",
    Name := "A", Description := "" }

def lineS6 : InvoiceLine := { lineS21 with TaxPercentage := 6, Name := "B" }

/-- Two standard-rated lines with distinct rates: the aggregation map holds
two keys. -/
def linesTwoRates : List InvoiceLine := [lineS21, lineS6]

def acc0 : TaxAccum := { lineTotal := 0, taxTotal := 0, summaries := [] }

/-! ## Claims C1 – C5 -/

/-- Claim C1: for every line whose resolved tax-category code is `K`, the
invoice line fragment and the credit-note line fragment carry effective rate
`0` and the exemption reason code and text (line-supplied when non-empty,
defaults otherwise); the invoice line's tax amount is exactly `0`, and the
aggregation step adds `0` tax for such a line, regardless of the stated
`TaxPercentage`. -/
theorem claim_C1_intra_community (line : InvoiceLine) (i : ℕ) (acc : TaxAccum)
    (hK : (if line.TaxCategoryID = "" then "S" else line.TaxCategoryID) = "K") :
    (buildInvoiceLine i line).Item.ClassifiedTaxCategory.Percent = 0 ∧
    (buildInvoiceLine i line).TaxTotal.TaxAmount.Value = 0 ∧
    (buildInvoiceLine i line).Item.ClassifiedTaxCategory.TaxExemptionReasonCode
      = (if line.TaxExemptionCode ≠ "" then line.TaxExemptionCode else "VATEX-EU-IC") ∧
    (buildInvoiceLine i line).Item.ClassifiedTaxCategory.TaxExemptionReason
      = (if line.TaxExemptionReason ≠ "" then line.TaxExemptionReason
         else "Intra-community supply") ∧
    (buildCreditNoteLine i line).Item.ClassifiedTaxCategory.Percent = 0 ∧
    (buildCreditNoteLine i line).Item.ClassifiedTaxCategory.TaxExemptionReasonCode
      = (if line.TaxExemptionCode ≠ "" then line.TaxExemptionCode else "VATEX-EU-IC") ∧
    (buildCreditNoteLine i line).Item.ClassifiedTaxCategory.TaxExemptionReason
      = (if line.TaxExemptionReason ≠ "" then line.TaxExemptionReason
         else "Intra-community supply") ∧
    (calcStep acc line).taxTotal = acc.taxTotal := by
  simp only [buildInvoiceLine, buildCreditNoteLine, calcStep, hK]
  norm_num [round, roundAway]

/-- Witness for claim C1 at a category-`K` line with stated rate `19`. -/
theorem claim_C1_witness :
    (buildInvoiceLine 0 lineK0).Item.ClassifiedTaxCategory.Percent = 0 ∧
    (buildInvoiceLine 0 lineK0).TaxTotal.TaxAmount.Value = 0 ∧
    (buildInvoiceLine 0 lineK0).Item.ClassifiedTaxCategory.TaxExemptionReasonCode
      = (if lineK0.TaxExemptionCode ≠ "" then lineK0.TaxExemptionCode else "VATEX-EU-IC") ∧
    (buildInvoiceLine 0 lineK0).Item.ClassifiedTaxCategory.TaxExemptionReason
      = (if lineK0.TaxExemptionReason ≠ "" then lineK0.TaxExemptionReason
         else "Intra-community supply") ∧
    (buildCreditNoteLine 0 lineK0).Item.ClassifiedTaxCategory.Percent = 0 ∧
    (buildCreditNoteLine 0 lineK0).Item.ClassifiedTaxCategory.TaxExemptionReasonCode
      = (if lineK0.TaxExemptionCode ≠ "" then lineK0.TaxExemptionCode else "VATEX-EU-IC") ∧
    (buildCreditNoteLine 0 lineK0).Item.ClassifiedTaxCategory.TaxExemptionReason
      = (if lineK0.TaxExemptionReason ≠ "" then lineK0.TaxExemptionReason
         else "Intra-community supply") ∧
    (calcStep acc0 lineK0).taxTotal = acc0.taxTotal :=
  claim_C1_intra_community lineK0 0 acc0 (by decide)

/-- Claim C2 as stated is false: for a category-`K` line that overrides the
exemption reason code and text, the per-line builder emits the overridden
values while the aggregator's subtotal always carries the defaults, so the
two call sites disagree on the resolved category descriptor. -/
theorem claim_C2_counterexample :
    (((calculateTaxTotals [lineKovr] (mapOrder [lineKovr])).2.2).map
        fun st => st.TaxCategory)
      ≠ [(buildInvoiceLine 0 lineKovr).Item.ClassifiedTaxCategory] := by
  simp [calculateTaxTotals, mapOrder, calcFold, List.foldl, calcStep, bumpSummaries,
    emitSubtotal, buildInvoiceLine, lineKovr]

/-- Claim C2, amended: for every line, the per-line builder and the
aggregator resolve the same effective category code, category name and
effective rate, and the invoice and credit-note builders resolve identical
descriptors; but the aggregator's subtotal always carries the default
exemption descriptor for category `K` — its category descriptor equals the
per-line descriptor of the same line with the exemption overrides cleared —
so the per-line fragment and the subtotal agree in full whenever the line
supplies no exemption overrides, and may disagree on the exemption
descriptor when it does. -/
theorem claim_C2_amended (line : InvoiceLine) (i : ℕ) :
    (((calculateTaxTotals [line] (mapOrder [line])).2.2).map
        fun st => (st.TaxCategory.ID, st.TaxCategory.Name, st.TaxCategory.Percent))
      = [((buildInvoiceLine i line).Item.ClassifiedTaxCategory.ID,
          (buildInvoiceLine i line).Item.ClassifiedTaxCategory.Name,
          (buildInvoiceLine i line).Item.ClassifiedTaxCategory.Percent)] ∧
    (buildCreditNoteLine i line).Item.ClassifiedTaxCategory
      = (buildInvoiceLine i line).Item.ClassifiedTaxCategory ∧
    (((calculateTaxTotals [line] (mapOrder [line])).2.2).map fun st => st.TaxCategory)
      = [(buildInvoiceLine i
            { line with TaxExemptionCode := "",
                        TaxExemptionReason := "" }).Item.ClassifiedTaxCategory] := by
  refine ⟨?_, rfl, ?_⟩
  · simp only [calculateTaxTotals, mapOrder, calcFold, List.foldl, calcStep, bumpSummaries,
      emitSubtotal, buildInvoiceLine, List.map]
    by_cases hK : (if line.TaxCategoryID = "" then "S" else line.TaxCategoryID) = "K" <;>
      simp [hK]
  · simp only [calculateTaxTotals, mapOrder, calcFold, List.foldl, calcStep, bumpSummaries,
      emitSubtotal, buildInvoiceLine, List.map]
    by_cases hK : (if line.TaxCategoryID = "" then "S" else line.TaxCategoryID) = "K" <;>
      simp [hK]

/-- Witness for the amended claim C2 at a category-`K` line that overrides
both exemption fields: code, name and rate still agree at both call sites,
and the subtotal's descriptor equals the override-free per-line
descriptor. -/
theorem claim_C2_witness :
    (((calculateTaxTotals [lineKovr] (mapOrder [lineKovr])).2.2).map
        fun st => (st.TaxCategory.ID, st.TaxCategory.Name, st.TaxCategory.Percent))
      = [((buildInvoiceLine 0 lineKovr).Item.ClassifiedTaxCategory.ID,
          (buildInvoiceLine 0 lineKovr).Item.ClassifiedTaxCategory.Name,
          (buildInvoiceLine 0 lineKovr).Item.ClassifiedTaxCategory.Percent)] ∧
    (buildCreditNoteLine 0 lineKovr).Item.ClassifiedTaxCategory
      = (buildInvoiceLine 0 lineKovr).Item.ClassifiedTaxCategory ∧
    (((calculateTaxTotals [lineKovr] (mapOrder [lineKovr])).2.2).map fun st => st.TaxCategory)
      = [(buildInvoiceLine 0
            { lineKovr with TaxExemptionCode := "",
                            TaxExemptionReason := "" }).Item.ClassifiedTaxCategory] :=
  claim_C2_amended lineKovr 0

/-- Claim C3: for every list of lines (and every legal map iteration order),
the generated monetary totals satisfy `payable = round(lineExtensionTotal +
taxTotal)` where `taxTotal` is the sum of the tax amounts over all emitted
subtotals, the tax-exclusive amount equals the line-extension total, and the
tax-inclusive amount equals the payable amount. -/
theorem claim_C3_monetary_totals (lines : List InvoiceLine) (order : List taxSummary)
    (h : validOrder lines order) :
    (buildTotals lines order).2.PayableAmount.Value
      = round ((buildTotals lines order).2.LineExtensionAmount.Value
          + (((buildTotals lines order).1.TaxSubtotal).map fun st => st.TaxAmount.Value).sum) ∧
    (buildTotals lines order).2.TaxExclusiveAmount.Value
      = (buildTotals lines order).2.LineExtensionAmount.Value ∧
    (buildTotals lines order).2.TaxInclusiveAmount.Value
      = (buildTotals lines order).2.PayableAmount.Value := by
  refine ⟨?_, rfl, rfl⟩
  show round ((calcFold lines).lineTotal + (calcFold lines).taxTotal)
      = round ((calcFold lines).lineTotal
          + ((order.map emitSubtotal).map fun st => st.TaxAmount.Value).sum)
  rw [subtotals_tax_sum lines order h]

/-- Witness for claim C3 at two standard-rated lines with distinct rates. -/
theorem claim_C3_witness :
    (buildTotals linesTwoRates (mapOrder linesTwoRates)).2.PayableAmount.Value
      = round ((buildTotals linesTwoRates (mapOrder linesTwoRates)).2.LineExtensionAmount.Value
          + (((buildTotals linesTwoRates (mapOrder linesTwoRates)).1.TaxSubtotal).map
              fun st => st.TaxAmount.Value).sum) ∧
    (buildTotals linesTwoRates (mapOrder linesTwoRates)).2.TaxExclusiveAmount.Value
      = (buildTotals linesTwoRates (mapOrder linesTwoRates)).2.LineExtensionAmount.Value ∧
    (buildTotals linesTwoRates (mapOrder linesTwoRates)).2.TaxInclusiveAmount.Value
      = (buildTotals linesTwoRates (mapOrder linesTwoRates)).2.PayableAmount.Value :=
  claim_C3_monetary_totals linesTwoRates (mapOrder linesTwoRates) (List.Perm.refl _)

/-- Claim C4: for every list of lines and every legal map iteration order,
the sum of the taxable amounts over all emitted subtotals equals the
document line-extension total exactly, and the sum of the tax amounts over
all emitted subtotals equals the document tax total exactly. -/
theorem claim_C4_subtotal_sums (lines : List InvoiceLine) (order : List taxSummary)
    (h : validOrder lines order) :
    (((calculateTaxTotals lines order).2.2).map fun st => st.TaxableAmount.Value).sum
      = (calculateTaxTotals lines order).1 ∧
    (((calculateTaxTotals lines order).2.2).map fun st => st.TaxAmount.Value).sum
      = (calculateTaxTotals lines order).2.1 :=
  ⟨subtotals_taxable_sum lines order h, subtotals_tax_sum lines order h⟩

/-- Witness for claim C4 at two standard-rated lines with distinct rates. -/
theorem claim_C4_witness :
    (((calculateTaxTotals linesTwoRates (mapOrder linesTwoRates)).2.2).map
        fun st => st.TaxableAmount.Value).sum
      = (calculateTaxTotals linesTwoRates (mapOrder linesTwoRates)).1 ∧
    (((calculateTaxTotals linesTwoRates (mapOrder linesTwoRates)).2.2).map
        fun st => st.TaxAmount.Value).sum
      = (calculateTaxTotals linesTwoRates (mapOrder linesTwoRates)).2.1 :=
  claim_C4_subtotal_sums linesTwoRates (mapOrder linesTwoRates) (List.Perm.refl _)

/-- Claim C5 as stated is false: the emitted subtotal list depends on the
map iteration order, which Go leaves unspecified, so two runs over the same
input may produce the same subtotals in different output orders (the code
does not sort them). -/
theorem claim_C5_counterexample :
    validOrder linesTwoRates ((mapOrder linesTwoRates).reverse) ∧
    (calculateTaxTotals linesTwoRates ((mapOrder linesTwoRates).reverse)).2.2
      ≠ (calculateTaxTotals linesTwoRates (mapOrder linesTwoRates)).2.2 := by
  refine ⟨(mapOrder linesTwoRates).reverse_perm, fun h => ?_⟩
  have h2 := congrArg (List.map fun st : xmlTaxSubtotal => st.TaxCategory.Percent) h
  simp [calculateTaxTotals, mapOrder, calcFold, List.foldl, calcStep, bumpSummaries,
    emitSubtotal, linesTwoRates, lineS21, lineS6] at h2

/-- Claim C5, amended: the emitted subtotal list contains at most one
subtotal per (effective rate, category code) pair, and any two runs over the
same input produce the same multiset of subtotals — the same accumulated
taxable/tax values per key — but the output order is whatever order the map
iteration happened to use, not a stable sorted order. -/
theorem claim_C5_amended (lines : List InvoiceLine) (o1 o2 : List taxSummary)
    (h1 : validOrder lines o1) (h2 : validOrder lines o2) :
    (((calculateTaxTotals lines o1).2.2).map
        fun st => (st.TaxCategory.Percent, st.TaxCategory.ID)).Nodup ∧
    ((calculateTaxTotals lines o1).2.2).Perm ((calculateTaxTotals lines o2).2.2) := by
  constructor
  · show ((o1.map emitSubtotal).map
        fun st => (st.TaxCategory.Percent, st.TaxCategory.ID)).Nodup
    have e1 : ((fun st : xmlTaxSubtotal => (st.TaxCategory.Percent, st.TaxCategory.ID))
        ∘ emitSubtotal) = fun s : taxSummary => (s.key.Rate, s.key.CategoryID) :=
      funext fun s => emitSubtotal_catKey s
    rw [List.map_map, e1]
    have hperm := h1.map fun s : taxSummary => (s.key.Rate, s.key.CategoryID)
    refine hperm.symm.nodup ?_
    have e2 : (mapOrder lines).map (fun s : taxSummary => (s.key.Rate, s.key.CategoryID))
        = ((calcFold lines).summaries.map Prod.fst).map
            fun k : taxKey => (k.Rate, k.CategoryID) := by
      rw [mapOrder, List.map_map, List.map_map]
      exact List.map_congr_left fun p hp => by
        have := (calcFold_inv lines).2.1 p hp
        simp [Function.comp, this]
    rw [e2]
    exact ((calcFold_inv lines).1).map taxKey_pair_injective
  · exact (h1.trans h2.symm).map emitSubtotal

/-- Witness for the amended claim C5 at two standard-rated lines with
distinct rates. -/
theorem claim_C5_witness :
    (((calculateTaxTotals linesTwoRates (mapOrder linesTwoRates)).2.2).map
        fun st => (st.TaxCategory.Percent, st.TaxCategory.ID)).Nodup ∧
    ((calculateTaxTotals linesTwoRates (mapOrder linesTwoRates)).2.2).Perm
      ((calculateTaxTotals linesTwoRates (mapOrder linesTwoRates)).2.2) :=
  claim_C5_amended linesTwoRates (mapOrder linesTwoRates) (mapOrder linesTwoRates)
    (List.Perm.refl _) (List.Perm.refl _)


structure xmlEndpointID where
  Value : String
  SchemeID : String
deriving DecidableEq

structure xmlPartyTaxScheme where
  CompanyID : String
  TaxScheme : xmlTaxScheme
deriving DecidableEq

structure xmlCountry where
  IdentificationCode : String
deriving DecidableEq

structure xmlPostalAddress where
  StreetName : String
  CityName : String
  PostalZone : String
  Country : xmlCountry
deriving DecidableEq

structure xmlParty where
  EndpointID : xmlEndpointID
  PartyName : String
  PostalAddress : xmlPostalAddress
  PartyTaxScheme : xmlPartyTaxScheme
  RegistrationName : String
deriving DecidableEq

structure xmlSupplierParty where
  Party : xmlParty
deriving DecidableEq

structure xmlCustomerParty where
  Party : xmlParty
deriving DecidableEq

structure xmlFinancialInstitutionBranch where
  ID : String
deriving DecidableEq

structure xmlFinancialAccount where
  ID : String
  FinancialInstitutionBranch : xmlFinancialInstitutionBranch
deriving DecidableEq

structure xmlPaymentMeans where
  PaymentMeansCode : String
  PayeeFinancialAccount : xmlFinancialAccount
deriving DecidableEq

structure xmlPaymentTerms where
  Note : String
deriving DecidableEq

structure xmlEmbeddedDocumentBinaryObject where
  Value : String
  MimeCode : String
  Filename : String
deriving DecidableEq

structure xmlAttachment where
  EmbeddedDocumentBinaryObject : xmlEmbeddedDocumentBinaryObject
deriving DecidableEq

structure xmlDocumentReference where
  ID : String
  DocumentDescription : String
  Attachment : List xmlAttachment
deriving DecidableEq

structure xmlDeliveryLocation where
  Address : xmlPostalAddress
deriving DecidableEq

structure xmlDelivery where
  ActualDeliveryDate : String
  DeliveryLocation : xmlDeliveryLocation
deriving DecidableEq

structure xmlInvoicePeriod where
  StartDate : String
  EndDate : String
deriving DecidableEq

/-- The assembled invoice document tree.  The schema file revision matching
the latest `invoice.go` is not in the repository (only an older revision
without delivery, period and exemption fields is); the fields here mirror the
assignments performed by `Invoice.Generate` and the latest `xmlCreditNote`
struct, which follows the same layout. -/
structure xmlInvoice where
  Xmlns : String
  Cac : String
  Cbc : String
  CustomizationID : String
  ProfileID : String
  ID : String
  IssueDate : String
  DueDate : String
  InvoiceTypeCode : String
  DocumentCurrency : String
  InvoicePeriod : Option xmlInvoicePeriod
  OrderReference : String
  AdditionalDocumentReference : List xmlDocumentReference
  SupplierParty : xmlSupplierParty
  CustomerParty : xmlCustomerParty
  Delivery : Option xmlDelivery
  PaymentMeans : xmlPaymentMeans
  PaymentTerms : xmlPaymentTerms
  TaxTotal : xmlTaxTotal
  LegalMonetaryTotal : xmlMonetaryTotal
  InvoiceLines : List xmlInvoiceLine
deriving DecidableEq

structure xmlCreditNote where
  Xmlns : String
  Cac : String
  Cbc : String
  CustomizationID : String
  ProfileID : String
  ID : String
  IssueDate : String
  CreditNoteTypeCode : String
  DocumentCurrency : String
  InvoicePeriod : Option xmlInvoicePeriod
  OrderReference : String
  AdditionalDocumentReference : List xmlDocumentReference
  SupplierParty : xmlSupplierParty
  CustomerParty : xmlCustomerParty
  Delivery : Option xmlDelivery
  PaymentMeans : xmlPaymentMeans
  PaymentTerms : xmlPaymentTerms
  TaxTotal : xmlTaxTotal
  LegalMonetaryTotal : xmlMonetaryTotal
  CreditNoteLines : List xmlCreditNoteLine
deriving DecidableEq

structure Invoice where
  ID : String
  CustomizationID : String
  ProfileID : String
  SupplierName : String
  SupplierVat : String
  SupplierPeppolID : String
  SupplierAddress : Address
  CustomerName : String
  CustomerVat : String
  CustomerPeppolID : String
  CustomerAddress : Address
  DeliveryAddress : Option Address
  ActualDeliveryDate : Option String
  InvoicePeriodStart : Option String
  InvoicePeriodEnd : Option String
  Iban : String
  Bic : String
  Note : String
  Lines : List InvoiceLine
  PdfInvoiceFilename : String
  PdfInvoiceData : String
  PdfInvoiceDescription : String

structure CreditNote where
  ID : String
  CustomizationID : String
  ProfileID : String
  SupplierName : String
  SupplierVat : String
  SupplierPeppolID : String
  SupplierAddress : Address
  CustomerName : String
  CustomerVat : String
  CustomerPeppolID : String
  CustomerAddress : Address
  DeliveryAddress : Option Address
  ActualDeliveryDate : Option String
  InvoicePeriodStart : Option String
  InvoicePeriodEnd : Option String
  Iban : String
  Bic : String
  Note : String
  Lines : List InvoiceLine
  PdfCreditNoteFilename : String
  PdfCreditNoteData : String
  PdfCreditNoteDescription : String

structure GoEnv where
  readFile : String → Except String (List Nat)
  detectContentType : List Nat → String
  base64Encode : List Nat → String
  today : String
  todayPlus30 : String

inductive GenResult (α : Type) where
  | fault : GenResult α
  | err : String → GenResult α
  | ok : α → GenResult α
deriving DecidableEq

def goStringSuffix (s : String) (low : ℕ) : Option String :=
  if low ≤ s.length then some (s.drop low) else none

def goStringSlice (s : String) (high : ℕ) : Option String :=
  if high ≤ s.length then some (s.take high) else none

def peppolEndpoint (id : String) : Option xmlEndpointID :=
  match goStringSuffix id 5 with
  | none => none
  | some value =>
    match goStringSlice id 4 with
    | none => none
    | some schemeID => some { Value := value, SchemeID := schemeID }

theorem peppolEndpoint_eq (id : String) :
    peppolEndpoint id = (if 5 ≤ id.length then
      some { Value := id.drop 5, SchemeID := id.take 4 } else none) := by
  by_cases h : 5 ≤ id.length
  · have h4 : 4 ≤ id.length := by omega
    simp [peppolEndpoint, goStringSuffix, goStringSlice, h, h4]
  · simp [peppolEndpoint, goStringSuffix, h]

def deliveryBlock (addr : Option Address) (date : Option String) : Option xmlDelivery :=
  let delivery : Option xmlDelivery :=
    match addr with
    | some a => some
      { ActualDeliveryDate := ""
        DeliveryLocation :=
          { Address :=
            { StreetName := a.StreetName, CityName := a.CityName,
              PostalZone := a.PostalZone,
              Country := { IdentificationCode := a.CountryCode } } } }
    | none => none
  match date with
  | some d =>
    match delivery with
    | none => some
      { ActualDeliveryDate := d
        DeliveryLocation :=
          { Address :=
            { StreetName := "", CityName := "", PostalZone := "",
              Country := { IdentificationCode := "" } } } }
    | some dl => some { dl with ActualDeliveryDate := d }
  | none => delivery

def attachRefs (docID encoded mime filename description : String) :
    List xmlDocumentReference :=
  [ { ID := "UBL.BE", DocumentDescription := "CommercialInvoice", Attachment := [] },
    { ID := docID, DocumentDescription := description,
      Attachment := [ { EmbeddedDocumentBinaryObject :=
        { Value := encoded, MimeCode := mime, Filename := filename } } ] } ]

/-- The pure part of `Invoice.Generate`: header fields, parties (with
normalized VAT identifiers), optional delivery/period blocks, payment
fields and the `addLines` output.  The full customer postal address
assigned mid-way through `Generate` is overwritten by the subsequent
`CustomerParty` literal whose postal address carries only the country
code; the net value is embedded here. -/
def Invoice.assembleDoc (env : GoEnv) (inv : Invoice) (order : List taxSummary)
    (sup cust : xmlEndpointID) : xmlInvoice :=
  let supplierVat := cleanVATIdentifier inv.SupplierVat inv.SupplierAddress.CountryCode
  let customerVat := cleanVATIdentifier inv.CustomerVat inv.CustomerAddress.CountryCode
  let totals := buildTotals inv.Lines order
  { Xmlns := "urn:oasis:names:specification:ubl:schema:xsd:Invoice-2"
    Cac := "urn:oasis:names:specification:ubl:schema:xsd:CommonAggregateComponents-2"
    Cbc := "urn:oasis:names:specification:ubl:schema:xsd:CommonBasicComponents-2"
    CustomizationID := inv.CustomizationID
    ProfileID := inv.ProfileID
    ID := inv.ID
    IssueDate := env.today
    DueDate := env.todayPlus30
    InvoiceTypeCode := "380"
    DocumentCurrency := "EUR"
    InvoicePeriod :=
      match inv.InvoicePeriodStart, inv.InvoicePeriodEnd with
      | some s, some e => some { StartDate := s, EndDate := e }
      | _, _ => none
    OrderReference := inv.ID
    AdditionalDocumentReference := []
    SupplierParty :=
      { Party :=
        { EndpointID := sup
          PartyName := inv.SupplierName
          RegistrationName := inv.SupplierName
          PartyTaxScheme := { CompanyID := supplierVat, TaxScheme := { ID := "VAT" } }
          PostalAddress :=
            { StreetName := inv.SupplierAddress.StreetName
              CityName := inv.SupplierAddress.CityName
              PostalZone := inv.SupplierAddress.PostalZone
              Country := { IdentificationCode := inv.SupplierAddress.CountryCode } } } }
    CustomerParty :=
      { Party :=
        { EndpointID := cust
          PartyName := inv.CustomerName
          RegistrationName := inv.CustomerName
          PartyTaxScheme := { CompanyID := customerVat, TaxScheme := { ID := "VAT" } }
          PostalAddress :=
            { StreetName := "", CityName := "", PostalZone := ""
              Country := { IdentificationCode := inv.CustomerAddress.CountryCode } } } }
    Delivery := deliveryBlock inv.DeliveryAddress inv.ActualDeliveryDate
    PaymentMeans :=
      { PaymentMeansCode := "1"
        PayeeFinancialAccount :=
          { ID := inv.Iban, FinancialInstitutionBranch := { ID := inv.Bic } } }
    PaymentTerms := if inv.Note ≠ "" then { Note := inv.Note } else { Note := "" }
    TaxTotal := totals.1
    LegalMonetaryTotal := totals.2
    InvoiceLines := buildInvoiceLines 0 inv.Lines }

def Invoice.withAttachments (env : GoEnv) (inv : Invoice) (doc : xmlInvoice) :
    GenResult xmlInvoice :=
  if inv.PdfInvoiceFilename ≠ "" ∧ inv.PdfInvoiceData = "" then
    match env.readFile inv.PdfInvoiceFilename with
    | Except.error e => GenResult.err ("add attachment failed: " ++ e)
    | Except.ok data =>
      let refs := attachRefs inv.ID (env.base64Encode data) (env.detectContentType data)
        inv.PdfInvoiceFilename "Invoice"
      GenResult.ok { doc with AdditionalDocumentReference := refs }
  else if inv.PdfInvoiceData ≠ "" then
    let refs := attachRefs inv.ID inv.PdfInvoiceData "application/pdf"
      inv.PdfInvoiceFilename inv.PdfInvoiceDescription
    GenResult.ok { doc with AdditionalDocumentReference := refs }
  else GenResult.ok doc

def Invoice.Generate (env : GoEnv) (inv : Invoice) (order : List taxSummary) :
    GenResult xmlInvoice :=
  match peppolEndpoint inv.SupplierPeppolID with
  | none => GenResult.fault
  | some sup =>
    match peppolEndpoint inv.CustomerPeppolID with
    | none => GenResult.fault
    | some cust => Invoice.withAttachments env inv (Invoice.assembleDoc env inv order sup cust)

theorem withAttachments_ne_fault (env : GoEnv) (inv : Invoice) (doc : xmlInvoice) :
    Invoice.withAttachments env inv doc ≠ GenResult.fault := by
  unfold Invoice.withAttachments
  split
  · split <;> simp
  · split <;> simp

theorem Generate_fault_iff (env : GoEnv) (inv : Invoice) (order : List taxSummary) :
    Invoice.Generate env inv order = GenResult.fault ↔
      inv.SupplierPeppolID.length < 5 ∨ inv.CustomerPeppolID.length < 5 := by
  unfold Invoice.Generate
  rw [peppolEndpoint_eq, peppolEndpoint_eq]
  by_cases h1 : 5 ≤ inv.SupplierPeppolID.length <;>
    by_cases h2 : 5 ≤ inv.CustomerPeppolID.length <;>
      simp [h1, h2, withAttachments_ne_fault] <;> omega


def CreditNote.assembleDoc (env : GoEnv) (cn : CreditNote) (order : List taxSummary)
    (sup cust : xmlEndpointID) : xmlCreditNote :=
  let supplierVat := cleanVATIdentifier cn.SupplierVat cn.SupplierAddress.CountryCode
  let customerVat := cleanVATIdentifier cn.CustomerVat cn.CustomerAddress.CountryCode
  let totals := buildTotals cn.Lines order
  { Xmlns := "urn:oasis:names:specification:ubl:schema:xsd:CreditNote-2"
    Cac := "urn:oasis:names:specification:ubl:schema:xsd:CommonAggregateComponents-2"
    Cbc := "urn:oasis:names:specification:ubl:schema:xsd:CommonBasicComponents-2"
    CustomizationID := cn.CustomizationID
    ProfileID := cn.ProfileID
    ID := cn.ID
    IssueDate := env.today
    CreditNoteTypeCode := "381"
    DocumentCurrency := "EUR"
    InvoicePeriod :=
      match cn.InvoicePeriodStart, cn.InvoicePeriodEnd with
      | some s, some e => some { StartDate := s, EndDate := e }
      | _, _ => none
    OrderReference := cn.ID
    AdditionalDocumentReference := []
    SupplierParty :=
      { Party :=
        { EndpointID := sup
          PartyName := cn.SupplierName
          RegistrationName := cn.SupplierName
          PartyTaxScheme := { CompanyID := supplierVat, TaxScheme := { ID := "VAT" } }
          PostalAddress :=
            { StreetName := cn.SupplierAddress.StreetName
              CityName := cn.SupplierAddress.CityName
              PostalZone := cn.SupplierAddress.PostalZone
              Country := { IdentificationCode := cn.SupplierAddress.CountryCode } } } }
    CustomerParty :=
      { Party :=
        { EndpointID := cust
          PartyName := cn.CustomerName
          RegistrationName := cn.CustomerName
          PartyTaxScheme := { CompanyID := customerVat, TaxScheme := { ID := "VAT" } }
          PostalAddress :=
            { StreetName := "", CityName := "", PostalZone := ""
              Country := { IdentificationCode := cn.CustomerAddress.CountryCode } } } }
    Delivery := deliveryBlock cn.DeliveryAddress cn.ActualDeliveryDate
    PaymentMeans :=
      { PaymentMeansCode := "1"
        PayeeFinancialAccount :=
          { ID := cn.Iban, FinancialInstitutionBranch := { ID := cn.Bic } } }
    PaymentTerms := if cn.Note ≠ "" then { Note := cn.Note } else { Note := "" }
    TaxTotal := totals.1
    LegalMonetaryTotal := totals.2
    CreditNoteLines := buildCreditNoteLines 0 cn.Lines }

def CreditNote.withAttachments (env : GoEnv) (cn : CreditNote) (doc : xmlCreditNote) :
    GenResult xmlCreditNote :=
  if cn.PdfCreditNoteFilename ≠ "" ∧ cn.PdfCreditNoteData = "" then
    match env.readFile cn.PdfCreditNoteFilename with
    | Except.error e => GenResult.err ("add attachment failed: " ++ e)
    | Except.ok data =>
      let refs := attachRefs cn.ID (env.base64Encode data) (env.detectContentType data)
        cn.PdfCreditNoteFilename "CreditNote"
      GenResult.ok { doc with AdditionalDocumentReference := refs }
  else if cn.PdfCreditNoteData ≠ "" then
    let refs := attachRefs cn.ID cn.PdfCreditNoteData "application/pdf"
      cn.PdfCreditNoteFilename cn.PdfCreditNoteDescription
    GenResult.ok { doc with AdditionalDocumentReference := refs }
  else GenResult.ok doc

def CreditNote.GenerateCreditNote (env : GoEnv) (cn : CreditNote)
    (order : List taxSummary) : GenResult xmlCreditNote :=
  match peppolEndpoint cn.SupplierPeppolID with
  | none => GenResult.fault
  | some sup =>
    match peppolEndpoint cn.CustomerPeppolID with
    | none => GenResult.fault
    | some cust =>
      CreditNote.withAttachments env cn (CreditNote.assembleDoc env cn order sup cust)

theorem withAttachmentsCN_ne_fault (env : GoEnv) (cn : CreditNote) (doc : xmlCreditNote) :
    CreditNote.withAttachments env cn doc ≠ GenResult.fault := by
  unfold CreditNote.withAttachments
  split
  · split <;> simp
  · split <;> simp

theorem GenerateCreditNote_fault_iff (env : GoEnv) (cn : CreditNote)
    (order : List taxSummary) :
    CreditNote.GenerateCreditNote env cn order = GenResult.fault ↔
      cn.SupplierPeppolID.length < 5 ∨ cn.CustomerPeppolID.length < 5 := by
  unfold CreditNote.GenerateCreditNote
  rw [peppolEndpoint_eq, peppolEndpoint_eq]
  by_cases h1 : 5 ≤ cn.SupplierPeppolID.length <;>
    by_cases h2 : 5 ≤ cn.CustomerPeppolID.length <;>
      simp [h1, h2, withAttachmentsCN_ne_fault] <;> omega

/-- Claim C8: generation faults with an out-of-bounds slice (not a returned
error) exactly when the supplier or customer compound Peppol identifier has
fewer than 5 characters; with at least 5 characters the slicing is safe and
yields scheme id = first 4 characters and endpoint value = substring from
index 5. -/
theorem claim_C8_peppol_slicing (env : GoEnv) (inv : Invoice) (cn : CreditNote)
    (order : List taxSummary) (id : String) :
    (Invoice.Generate env inv order = GenResult.fault ↔
      inv.SupplierPeppolID.length < 5 ∨ inv.CustomerPeppolID.length < 5) ∧
    (CreditNote.GenerateCreditNote env cn order = GenResult.fault ↔
      cn.SupplierPeppolID.length < 5 ∨ cn.CustomerPeppolID.length < 5) ∧
    peppolEndpoint id = (if 5 ≤ id.length then
      some { Value := id.drop 5, SchemeID := id.take 4 } else none) :=
  ⟨Generate_fault_iff env inv order, GenerateCreditNote_fault_iff env cn order,
    peppolEndpoint_eq id⟩

/-- Claim C9: with a non-empty `PdfInvoiceFilename` and empty
`PdfInvoiceData`, a failing attachment read makes `Generate` return an error
wrapping the read failure with context "add attachment failed"; the `err`
outcome carries no document, so no partial output is returned. -/
theorem claim_C9_attachment_error (env : GoEnv) (inv : Invoice) (order : List taxSummary)
    (e : String)
    (h1 : 5 ≤ inv.SupplierPeppolID.length) (h2 : 5 ≤ inv.CustomerPeppolID.length)
    (h3 : inv.PdfInvoiceFilename ≠ "") (h4 : inv.PdfInvoiceData = "")
    (h5 : env.readFile inv.PdfInvoiceFilename = Except.error e) :
    Invoice.Generate env inv order = GenResult.err ("add attachment failed: " ++ e) := by
  unfold Invoice.Generate
  rw [peppolEndpoint_eq, peppolEndpoint_eq, if_pos h1, if_pos h2]
  show Invoice.withAttachments env inv _ = _
  unfold Invoice.withAttachments
  rw [if_pos ⟨h3, h4⟩, h5]

def genDoc {α : Type} : GenResult α → Option α
  | GenResult.ok d => some d
  | _ => none

theorem withAttachments_preserves (env : GoEnv) (inv : Invoice) (doc : xmlInvoice)
    (hA : inv.PdfInvoiceFilename = "" ∨ inv.PdfInvoiceData ≠ "" ∨
      ∃ d, env.readFile inv.PdfInvoiceFilename = Except.ok d) :
    ∃ doc2 : xmlInvoice, Invoice.withAttachments env inv doc = GenResult.ok doc2 ∧
      doc2.InvoiceLines = doc.InvoiceLines ∧
      doc2.TaxTotal = doc.TaxTotal ∧
      doc2.LegalMonetaryTotal = doc.LegalMonetaryTotal := by
  unfold Invoice.withAttachments
  by_cases hcond : inv.PdfInvoiceFilename ≠ "" ∧ inv.PdfInvoiceData = ""
  · rw [if_pos hcond]
    have hok : ∃ d, env.readFile inv.PdfInvoiceFilename = Except.ok d := by
      rcases hA with hA | hA | hA
      · exact absurd hA hcond.1
      · exact absurd hcond.2 hA
      · exact hA
    obtain ⟨d, hd⟩ := hok
    rw [hd]
    exact ⟨_, rfl, rfl, rfl, rfl⟩
  · rw [if_neg hcond]
    by_cases hdata : inv.PdfInvoiceData ≠ ""
    · rw [if_pos hdata]
      exact ⟨_, rfl, rfl, rfl, rfl⟩
    · rw [if_neg hdata]
      exact ⟨_, rfl, rfl, rfl, rfl⟩

/-- Claim C10, amended: for every invoice with an empty `Lines` list, Peppol
identifiers of at least 5 characters, and no failing attachment read (no PDF
filename, or raw PDF data supplied, or the file read succeeds), `Generate`
succeeds and the produced document has no line fragments, an empty
tax-subtotal list, and all monetary totals equal to 0. -/
theorem claim_C10_amended (env : GoEnv) (inv : Invoice) (order : List taxSummary)
    (hL : inv.Lines = [])
    (h1 : 5 ≤ inv.SupplierPeppolID.length) (h2 : 5 ≤ inv.CustomerPeppolID.length)
    (hO : validOrder inv.Lines order)
    (hA : inv.PdfInvoiceFilename = "" ∨ inv.PdfInvoiceData ≠ "" ∨
      ∃ d, env.readFile inv.PdfInvoiceFilename = Except.ok d) :
    (genDoc (Invoice.Generate env inv order)).map (fun d => d.InvoiceLines) = some [] ∧
    (genDoc (Invoice.Generate env inv order)).map
      (fun d => d.TaxTotal.TaxSubtotal) = some [] ∧
    (genDoc (Invoice.Generate env inv order)).map
      (fun d => d.TaxTotal.TaxAmount.Value) = some 0 ∧
    (genDoc (Invoice.Generate env inv order)).map
      (fun d => d.LegalMonetaryTotal.LineExtensionAmount.Value) = some 0 ∧
    (genDoc (Invoice.Generate env inv order)).map
      (fun d => d.LegalMonetaryTotal.TaxExclusiveAmount.Value) = some 0 ∧
    (genDoc (Invoice.Generate env inv order)).map
      (fun d => d.LegalMonetaryTotal.TaxInclusiveAmount.Value) = some 0 ∧
    (genDoc (Invoice.Generate env inv order)).map
      (fun d => d.LegalMonetaryTotal.PayableAmount.Value) = some 0 := by
  have horder : order = [] := by
    have h := hO
    rw [hL] at h
    exact h.eq_nil
  subst horder
  unfold Invoice.Generate
  rw [peppolEndpoint_eq, peppolEndpoint_eq, if_pos h1, if_pos h2]
  dsimp only
  obtain ⟨doc2, hw, hlines, htax, hmon⟩ :=
    withAttachments_preserves env inv
      (Invoice.assembleDoc env inv []
        { Value := inv.SupplierPeppolID.drop 5, SchemeID := inv.SupplierPeppolID.take 4 }
        { Value := inv.CustomerPeppolID.drop 5, SchemeID := inv.CustomerPeppolID.take 4 }) hA
  rw [hw]
  simp [genDoc, hlines, htax, hmon, Invoice.assembleDoc, buildTotals, calculateTaxTotals,
    calcFold, buildInvoiceLines, hL, round_zero]


def addrBE : Address :=
  { StreetName := "Main 1", CityName := "Brussels", PostalZone := "1000", CountryCode := "BE" }

def envFail : GoEnv :=
  { readFile := fun _ => Except.error "boom"
    detectContentType := fun _ => "application/pdf"
    base64Encode := fun _ => ""
    today := "2026-10-11"
    todayPlus30 := "2026-11-10" }

def invC10 : Invoice :=
  { ID := "INV-1", CustomizationID := "cust", ProfileID := "prof",
    SupplierName := "S", SupplierVat := "BE0123456789", SupplierPeppolID := "9925:BE0123456789",
    SupplierAddress := addrBE, CustomerName := "C", CustomerVat := "BE9876543210",
    CustomerPeppolID := "9925:BE9876543210", CustomerAddress := addrBE,
    DeliveryAddress := none, ActualDeliveryDate := none,
    InvoicePeriodStart := none, InvoicePeriodEnd := none,
    Iban := "BE20738001803717", Bic := "KREDBEBB", Note := "", Lines := [],
    PdfInvoiceFilename := "invoice.pdf", PdfInvoiceData := "",
    PdfInvoiceDescription := "" }

def invEmpty : Invoice := { invC10 with PdfInvoiceFilename := "" }

/-- Claim C10 as stated is false: an invoice with an empty `Lines` list and
valid Peppol identifiers still fails generation when it names an attachment
file whose read fails, so "Generate succeeds" does not hold for every such
invoice. -/
theorem claim_C10_counterexample :
    Invoice.Generate envFail invC10 [] = GenResult.err "add attachment failed: boom" := by
  decide

/-- Witness for claim C9 at a concrete invoice whose attachment read fails
with "boom". -/
theorem claim_C9_witness :
    Invoice.Generate envFail invC10 [] = GenResult.err ("add attachment failed: " ++ "boom") :=
  claim_C9_attachment_error envFail invC10 [] "boom" (by decide) (by decide) (by decide) rfl rfl

/-- Witness for the amended claim C10 at a concrete invoice with no lines
and no attachment. -/
theorem claim_C10_witness :
    (genDoc (Invoice.Generate envFail invEmpty [])).map (fun d => d.InvoiceLines) = some [] ∧
    (genDoc (Invoice.Generate envFail invEmpty [])).map
      (fun d => d.TaxTotal.TaxSubtotal) = some [] ∧
    (genDoc (Invoice.Generate envFail invEmpty [])).map
      (fun d => d.TaxTotal.TaxAmount.Value) = some 0 ∧
    (genDoc (Invoice.Generate envFail invEmpty [])).map
      (fun d => d.LegalMonetaryTotal.LineExtensionAmount.Value) = some 0 ∧
    (genDoc (Invoice.Generate envFail invEmpty [])).map
      (fun d => d.LegalMonetaryTotal.TaxExclusiveAmount.Value) = some 0 ∧
    (genDoc (Invoice.Generate envFail invEmpty [])).map
      (fun d => d.LegalMonetaryTotal.TaxInclusiveAmount.Value) = some 0 ∧
    (genDoc (Invoice.Generate envFail invEmpty [])).map
      (fun d => d.LegalMonetaryTotal.PayableAmount.Value) = some 0 :=
  claim_C10_amended envFail invEmpty [] rfl (by decide) (by decide)
    (List.Perm.refl _) (Or.inl rfl)

end Ubl
